import Mathlib

/-!
Verification development for check_trex (src/check_trex.py), a Nagios-style
health check for the T-Rex miner HTTP API.  The pure decision logic of the
script is embedded shallowly below: severity states, metric values, the three
evaluation contexts, the probe that turns a parsed JSON summary into a metric
list, the summary formatter, and the aggregation into an exit code.
-/

namespace CheckTrex

/-- Nagios service states, from nagiosplugin.state (Ok, Warn, Critical,
Unknown), ordered by their numeric codes. -/
inductive State where
  | ok
  | warn
  | critical
  | unknown
deriving DecidableEq, Repr

/-- Numeric Nagios exit code of a state: 0, 1, 2, 3. -/
def State.code : State → Nat
  | .ok => 0
  | .warn => 1
  | .critical => 2
  | .unknown => 3

/-- Textual form of a state, as Python str() renders the nagiosplugin state
objects ("ok", "warning", "critical", "unknown"). -/
def State.text : State → String
  | .ok => "ok"
  | .warn => "warning"
  | .critical => "critical"
  | .unknown => "unknown"

/-- A metric value: the script puts either numbers (hashrate, uptime,
temperatures) or booleans (success, paused) into metrics. -/
inductive Value where
  | num (n : Int)
  | bool (b : Bool)
deriving DecidableEq, Repr

/-- Numeric reading of a value, as Python numeric comparison treats booleans
(True is 1, False is 0). -/
def Value.toInt : Value → Int
  | .num n => n
  | .bool b => Bool.rec 0 1 b

/-- nagiosplugin Metric as the script uses it: a name, a value and the name of
the context that evaluates it (uom, min and max are left at their defaults
everywhere in the script). -/
structure Metric where
  name : String
  value : Value
  context : String
deriving DecidableEq, Repr

/-- nagiosplugin Result as produced by the evaluate methods in the script: a
state, an optional hint string and the metric it talks about. -/
structure Result where
  state : State
  hint : Option String
  metric : Metric
deriving DecidableEq, Repr

/-- Python truthiness of an optional integer: None is falsy, and so is the
integer 0.  The threshold tests in BelowThresholdContext.evaluate are guarded
by exactly this. -/
def optTruthy : Option Int → Bool
  | none => false
  | some n => n != 0

/-- BelowThresholdContext (src/check_trex.py lines 141-164): a context whose
warning and critical bounds trigger when the value falls to or below them. -/
structure BelowThresholdContext where
  name : String
  warning : Option Int := none
  critical : Option Int := none
deriving DecidableEq, Repr

/-- BelowThresholdContext.evaluate (src lines 147-153):
critical when `self.critical and metric.value <= self.critical`, else warning
when `self.warning and metric.value <= self.warning`, else Ok; the hint is the
f-string `"{metric.value}<={bound}"`. -/
def BelowThresholdContext.evaluate (ctx : BelowThresholdContext) (m : Metric) :
    Result :=
  let v := m.value.toInt
  if optTruthy ctx.critical ∧ v ≤ ctx.critical.getD 0 then
    let c := ctx.critical.getD 0
    { state := .critical, hint := some (toString v ++ "<=" ++ toString c),
      metric := m }
  else if optTruthy ctx.warning ∧ v ≤ ctx.warning.getD 0 then
    let w := ctx.warning.getD 0
    { state := .warn, hint := some (toString v ++ "<=" ++ toString w),
      metric := m }
  else
    { state := .ok, hint := none, metric := m }

/-- BooleanContext (src lines 167-185): compares the observed boolean against
an expected boolean; on mismatch the severity is Critical if the critical flag
is set, else Warn if the warning flag is set, else Ok. -/
structure BooleanContext where
  name : String
  expected : Bool := true
  warning : Bool := false
  critical : Bool := false
deriving DecidableEq, Repr

/-- Python str() of a boolean, as the f-string in BooleanContext.evaluate
renders `self.expected`. -/
def boolText : Bool → String
  | true => "True"
  | false => "False"

/-- BooleanContext.evaluate (src lines 174-185): `not metric.value is
self.expected` is a mismatch (identity equals equality on Python booleans);
on mismatch the result type starts at Ok and is upgraded by the critical then
the warning flag, with hint `"{metric.name} is not {self.expected}"`;
on match the result is Ok with no hint. -/
def BooleanContext.evaluate (ctx : BooleanContext) (m : Metric) : Result :=
  if m.value != Value.bool ctx.expected then
    let rt := if ctx.critical then State.critical
              else if ctx.warning then State.warn
              else State.ok
    { state := rt,
      hint := some (m.name ++ " is not " ++ boolText ctx.expected),
      metric := m }
  else
    { state := .ok, hint := none, metric := m }

/-- Modelled from the spec: nagiosplugin's ScalarContext, which the script
instantiates for temperature and memory_temperature (src lines 294-303) but
whose evaluate method lives in the external nagiosplugin library, absent from
src/.  The spec describes it as the above-threshold check: "critical if value
≥ critical bound, else warning if value ≥ warning bound, else OK"; the spec
does not fix its hint text, so the hint is left empty here. -/
structure ScalarContext where
  name : String
  warning : Int
  critical : Int
deriving DecidableEq, Repr

/-- Modelled from the spec: ScalarContext evaluation, above-threshold
direction (spec section 4.2). -/
def ScalarContext.evaluate (ctx : ScalarContext) (m : Metric) : Result :=
  let v := m.value.toInt
  if v ≥ ctx.critical then { state := .critical, hint := none, metric := m }
  else if v ≥ ctx.warning then { state := .warn, hint := none, metric := m }
  else { state := .ok, hint := none, metric := m }

/-- One record of the `gpus` array of the /summary JSON response: the script
reads `name`, `gpu_id` and the optional `temperature` and
`memory_temperature` keys. -/
structure Gpu where
  gpu_id : Nat
  name : String
  temperature : Option Int := none
  memory_temperature : Option Int := none
deriving DecidableEq, Repr

/-- The parsed /summary JSON response, keeping exactly the optional fields the
probe looks at.  `gpus` is optional because the script fetches it with
`data.get("gpus")`, which yields None when the key is absent. -/
structure SummaryData where
  hashrate : Option Int := none
  success : Option Bool := none
  paused : Option Bool := none
  uptime : Option Int := none
  gpus : Option (List Gpu) := none
deriving DecidableEq, Repr

/-- The runtime errors the probe body can raise while walking the parsed
JSON: iterating over None when the `gpus` key is absent (a TypeError), and
the unbound name `memory_temperature` in the GPU loop (a NameError). -/
inductive ProbeError where
  | gpusNone
  | memoryTemperatureUnbound
deriving DecidableEq, Repr

/-- The GPU loop of Trex.probe (src lines 230-252).  For each record it
appends a temperature metric when `temperature` is present; when
`memory_temperature` is present it evaluates the debug f-string referencing
the never-bound name `memory_temperature` (src line 244), which raises before
any metric is appended. -/
def probeGpus : List Gpu → Except ProbeError (List Metric)
  | [] => .ok []
  | g :: rest =>
    let tms := match g.temperature with
      | some t => [Metric.mk "temperature" (.num t) "temperature"]
      | none => []
    match g.memory_temperature with
    | some _ => .error .memoryTemperatureUnbound
    | none =>
      match probeGpus rest with
      | .ok more => .ok (tms ++ more)
      | .error e => .error e

/-- The hashrate block of Trex.probe (src lines 203-206): one metric when the
key is present, nothing otherwise. -/
def hashrateMetrics (data : SummaryData) : List Metric :=
  match data.hashrate with
  | some h => [Metric.mk "hashrate" (.num h) "hashrate"]
  | none => []

/-- The success block of Trex.probe (src lines 208-214). -/
def successMetrics (data : SummaryData) : List Metric :=
  match data.success with
  | some s => [Metric.mk "success" (.bool s) "success"]
  | none => []

/-- The paused block of Trex.probe (src lines 216-222). -/
def pausedMetrics (data : SummaryData) : List Metric :=
  match data.paused with
  | some p => [Metric.mk "paused" (.bool p) "paused"]
  | none => []

/-- The uptime block of Trex.probe (src lines 224-228). -/
def uptimeMetrics (data : SummaryData) : List Metric :=
  match data.uptime with
  | some u => [Metric.mk "uptime" (.num u) "uptime"]
  | none => []

/-- Trex.probe (src lines 193-254), after the HTTP fetch and JSON parse: each
of hashrate, success, paused and uptime contributes a metric exactly when its
key is present, then the GPU loop runs over `data.get("gpus")`, which raises
a TypeError when the key is absent. -/
def Trex.probe (data : SummaryData) : Except ProbeError (List Metric) :=
  let ms : List Metric :=
    hashrateMetrics data ++ successMetrics data ++ pausedMetrics data
      ++ uptimeMetrics data
  match data.gpus with
  | none => .error .gpusNone
  | some gl =>
    match probeGpus gl with
    | .ok gms => .ok (ms ++ gms)
    | .error e => .error e

/-- TrexSummary.problem (src lines 257-265): the comma-joined list of all
results whose state string is not "ok", each rendered by the f-string
`"{result.metric.name} {result.state}: {result.hint}"` (a missing hint prints
as "None"). -/
def TrexSummary.problem (results : List Result) : String :=
  String.intercalate ", "
    (results.filterMap fun r =>
      if r.state.text != "ok" then
        some (r.metric.name ++ " " ++ r.state.text ++ ": " ++ r.hint.getD "None")
      else none)

/-- The command line arguments that shape the check (src lines 22-130), with
the argparse defaults: the scalar thresholds default to None, the paused
flags to False, and the temperature bounds to 70/90 and 90/110. -/
structure Args where
  hashrate_warning : Option Int := none
  hashrate_critical : Option Int := none
  uptime_warning : Option Int := none
  uptime_critical : Option Int := none
  paused_warning : Bool := false
  paused_critical : Bool := false
  temperature_warning : Int := 70
  temperature_critical : Int := 90
  memory_temperature_warning : Int := 90
  memory_temperature_critical : Int := 110
deriving Repr

/-- A context as registered with the Check: one of the three context kinds
used in main. -/
inductive Ctx where
  | boolean (c : BooleanContext)
  | below (c : BelowThresholdContext)
  | scalar (c : ScalarContext)
deriving DecidableEq, Repr

/-- The registered name of a context, which nagiosplugin matches against
`metric.context`. -/
def Ctx.name : Ctx → String
  | .boolean c => c.name
  | .below c => c.name
  | .scalar c => c.name

/-- Dispatch of evaluation to the right context kind. -/
def Ctx.evaluate : Ctx → Metric → Result
  | .boolean c, m => c.evaluate m
  | .below c, m => c.evaluate m
  | .scalar c, m => c.evaluate m

/-- The context list built in main (src lines 277-305): success and paused as
BooleanContext (both with expected=True; only paused gets the severity
flags), hashrate and uptime as BelowThresholdContext, temperature and
memory_temperature as ScalarContext with the argparse thresholds. -/
def contexts (args : Args) : List Ctx :=
  [ .boolean { name := "success", expected := true,
               warning := false, critical := false },
    .boolean { name := "paused", expected := true,
               warning := args.paused_warning,
               critical := args.paused_critical },
    .below { name := "hashrate", warning := args.hashrate_warning,
             critical := args.hashrate_critical },
    .below { name := "uptime", warning := args.uptime_warning,
             critical := args.uptime_critical },
    .scalar { name := "temperature", warning := args.temperature_warning,
              critical := args.temperature_critical },
    .scalar { name := "memory_temperature",
              warning := args.memory_temperature_warning,
              critical := args.memory_temperature_critical } ]

/-- Modelled from the spec: the nagiosplugin Check machinery (external
library, absent from src/) evaluates each probed metric with the context
whose name equals the metric's context string. -/
def evalMetrics (cs : List Ctx) (ms : List Metric) : List Result :=
  ms.filterMap fun m => (cs.find? fun c => c.name == m.context).map
    fun c => c.evaluate m

/-- Modelled from the spec: "the overall severity is the maximum (worst)
severity among all individual results" (spec section 4.3); the fold keeps the
state with the larger Nagios code, starting from Ok. -/
def worstState (rs : List Result) : State :=
  rs.foldl (fun acc r => if r.state.code ≤ acc.code then acc else r.state)
    State.ok

/-- Modelled from the spec: the failures of the HTTP fetch and JSON parse that
happen before the probe body runs — network failure, timeout, non-2xx
response, JSON-parse failure (spec section 7).  The requests calls live in
src (lines 194-196) but the exceptions are raised by the external requests
library. -/
inductive FetchError where
  | connection
  | timeout
  | httpStatus
  | jsonParse
deriving DecidableEq, Repr

/-- Modelled from the spec, together with main's top-level handler (src lines
276-310): the check fetches and probes once; any fetch or probe exception
propagates to the `except` clause, which prints a short message and exits
with the Unknown code 3; otherwise every metric is evaluated, the exit code
is the code of the worst state and the summary line is
TrexSummary.problem of all results. -/
def runCheck (args : Args) (resp : Except FetchError SummaryData) :
    Nat × String :=
  match resp with
  | .error _ => (State.unknown.code, "Failed to execute check")
  | .ok data =>
    match Trex.probe data with
    | .error _ => (State.unknown.code, "Failed to execute check")
    | .ok ms =>
      let rs := evalMetrics (contexts args) ms
      ((worstState rs).code, TrexSummary.problem rs)

/-- Reference below-threshold evaluation, written from the spec's words: "a
bound is set" means the option carries a value; critical when the critical
bound is set and the value is at most it, else warning when the warning bound
is set and the value is at most it, else OK. -/
def specBelowState (warning critical : Option Int) (v : Int) : State :=
  match critical with
  | some c =>
    if v ≤ c then .critical
    else match warning with
      | some w => if v ≤ w then .warn else .ok
      | none => .ok
  | none =>
    match warning with
    | some w => if v ≤ w then .warn else .ok
    | none => .ok

/-! ## Helper lemmas -/

/-- Every metric produced by the GPU loop on records without a
memory_temperature key is a temperature metric, and the loop succeeds. -/
lemma probeGpus_ok (gl : List Gpu)
    (hm : ∀ g ∈ gl, g.memory_temperature = none) :
    ∃ gms, probeGpus gl = .ok gms ∧ ∀ m ∈ gms, m.name = "temperature" := by
  induction gl with
  | nil => exact ⟨[], rfl, by simp⟩
  | cons g rest ih =>
    obtain ⟨gms, hrest, hname⟩ := ih fun x hx => hm x (List.mem_cons_of_mem g hx)
    have hg : g.memory_temperature = none := hm g (List.mem_cons_self g rest)
    cases ht : g.temperature with
    | none =>
      refine ⟨gms, ?_, hname⟩
      simp [probeGpus, hg, ht, hrest]
    | some t =>
      refine ⟨Metric.mk "temperature" (.num t) "temperature" :: gms, ?_, ?_⟩
      · simp [probeGpus, hg, ht, hrest]
      · intro m hmem
        rcases List.mem_cons.mp hmem with h | h
        · rw [h]
        · exact hname m h

/-- When every record lacks both optional keys, the GPU loop produces no
metric at all. -/
lemma probeGpus_empty (gl : List Gpu)
    (hm : ∀ g ∈ gl, g.memory_temperature = none)
    (ht : ∀ g ∈ gl, g.temperature = none) :
    probeGpus gl = .ok [] := by
  induction gl with
  | nil => rfl
  | cons g rest ih =>
    have h1 : g.memory_temperature = none := hm g (List.mem_cons_self g rest)
    have h2 : g.temperature = none := ht g (List.mem_cons_self g rest)
    have h3 := ih (fun x hx => hm x (List.mem_cons_of_mem g hx))
      (fun x hx => ht x (List.mem_cons_of_mem g hx))
    simp [probeGpus, h1, h2, h3]

/-- A GPU record with a memory_temperature key makes the loop raise the
NameError, whatever else the list holds. -/
lemma probeGpus_error (gl : List Gpu)
    (h : ∃ g ∈ gl, g.memory_temperature.isSome) :
    probeGpus gl = .error .memoryTemperatureUnbound := by
  induction gl with
  | nil => simp at h
  | cons g rest ih =>
    rcases h with ⟨x, hx, hsome⟩
    rcases List.mem_cons.mp hx with h | h
    · subst h
      rcases hmem : x.memory_temperature with _ | t
      · rw [hmem] at hsome; simp at hsome
      · simp [probeGpus, hmem]
    · have := ih ⟨x, h, hsome⟩
      cases hg : g.memory_temperature with
      | none => simp [probeGpus, hg, this]
      | some t => simp [probeGpus, hg]

/-- The code of the running fold of worstState equals the fold of the maxima
of the codes. -/
lemma worstState_foldl_code (rs : List Result) (s : State) :
    (rs.foldl (fun acc r => if r.state.code ≤ acc.code then acc else r.state)
      s).code
      = rs.foldl (fun a r => max a r.state.code) s.code := by
  induction rs generalizing s with
  | nil => rfl
  | cons r rest ih =>
    simp only [List.foldl_cons]
    rw [ih]
    congr 1
    by_cases h : r.state.code ≤ s.code
    · simp [h, Nat.max_eq_left h]
    · simp [h, Nat.max_eq_right (Nat.le_of_not_le h)]

/-- The running fold of worstState bounds the code of every visited result
and of its start state. -/
lemma worstState_foldl_le (rs : List Result) (s : State) :
    s.code ≤ (rs.foldl
      (fun acc r => if r.state.code ≤ acc.code then acc else r.state) s).code
    ∧ ∀ r ∈ rs, r.state.code ≤ (rs.foldl
      (fun acc r => if r.state.code ≤ acc.code then acc else r.state)
      s).code := by
  induction rs generalizing s with
  | nil => exact ⟨Nat.le_refl _, by simp⟩
  | cons r rest ih =>
    simp only [List.foldl_cons]
    have step : s.code ≤ (if r.state.code ≤ s.code then s else r.state).code
        ∧ r.state.code ≤ (if r.state.code ≤ s.code then s else r.state).code := by
      by_cases h : r.state.code ≤ s.code <;> simp [h]
      exact Nat.le_of_not_le h
    obtain ⟨h1, h2⟩ := ih (if r.state.code ≤ s.code then s else r.state)
    refine ⟨Nat.le_trans step.1 h1, ?_⟩
    intro x hx
    rcases List.mem_cons.mp hx with h | h
    · exact Nat.le_trans (h ▸ step.2) h1
    · exact h2 x h

/-- The running fold of worstState returns its start state or the state of
one of the visited results. -/
lemma worstState_foldl_attained (rs : List Result) (s : State) :
    rs.foldl (fun acc r => if r.state.code ≤ acc.code then acc else r.state) s
        = s
    ∨ ∃ r ∈ rs, rs.foldl
        (fun acc r => if r.state.code ≤ acc.code then acc else r.state) s
        = r.state := by
  induction rs generalizing s with
  | nil => exact Or.inl rfl
  | cons r rest ih =>
    simp only [List.foldl_cons]
    rcases ih (if r.state.code ≤ s.code then s else r.state) with h | ⟨x, hx, h⟩
    · by_cases hc : r.state.code ≤ s.code
      · left; rw [h, if_pos hc]
      · right
        exact ⟨r, List.mem_cons_self r rest, by rw [h, if_neg hc]⟩
    · exact Or.inr ⟨x, List.mem_cons_of_mem r hx, h⟩

/-- Membership in the hashrate block forces the metric name and the presence
of the key. -/
lemma mem_hashrateMetrics (data : SummaryData) (m : Metric)
    (h : m ∈ hashrateMetrics data) :
    m.name = "hashrate" ∧ data.hashrate.isSome := by
  cases hh : data.hashrate with
  | none => simp [hashrateMetrics, hh] at h
  | some v =>
    simp only [hashrateMetrics, hh, List.mem_singleton] at h
    subst h
    exact ⟨rfl, rfl⟩

/-- Membership in the success block forces the metric name and the presence
of the key. -/
lemma mem_successMetrics (data : SummaryData) (m : Metric)
    (h : m ∈ successMetrics data) :
    m.name = "success" ∧ data.success.isSome := by
  cases hh : data.success with
  | none => simp [successMetrics, hh] at h
  | some v =>
    simp only [successMetrics, hh, List.mem_singleton] at h
    subst h
    exact ⟨rfl, rfl⟩

/-- Membership in the paused block forces the metric name and the presence of
the key. -/
lemma mem_pausedMetrics (data : SummaryData) (m : Metric)
    (h : m ∈ pausedMetrics data) :
    m.name = "paused" ∧ data.paused.isSome := by
  cases hh : data.paused with
  | none => simp [pausedMetrics, hh] at h
  | some v =>
    simp only [pausedMetrics, hh, List.mem_singleton] at h
    subst h
    exact ⟨rfl, rfl⟩

/-- Membership in the uptime block forces the metric name and the presence of
the key. -/
lemma mem_uptimeMetrics (data : SummaryData) (m : Metric)
    (h : m ∈ uptimeMetrics data) :
    m.name = "uptime" ∧ data.uptime.isSome := by
  cases hh : data.uptime with
  | none => simp [uptimeMetrics, hh] at h
  | some v =>
    simp only [uptimeMetrics, hh, List.mem_singleton] at h
    subst h
    exact ⟨rfl, rfl⟩

/-- Every metric of a successful probe either comes from one of the four
scalar blocks, with its key present, or from the GPU loop. -/
lemma probe_mem_cases (data : SummaryData) (gms : List Metric) (m : Metric)
    (hmem : m ∈ (hashrateMetrics data ++ successMetrics data
      ++ pausedMetrics data ++ uptimeMetrics data) ++ gms) :
    (m.name = "hashrate" ∧ data.hashrate.isSome)
    ∨ (m.name = "success" ∧ data.success.isSome)
    ∨ (m.name = "paused" ∧ data.paused.isSome)
    ∨ (m.name = "uptime" ∧ data.uptime.isSome)
    ∨ m ∈ gms := by
  simp only [List.mem_append] at hmem
  rcases hmem with (((h | h) | h) | h) | h
  · exact Or.inl (mem_hashrateMetrics data m h)
  · exact Or.inr (Or.inl (mem_successMetrics data m h))
  · exact Or.inr (Or.inr (Or.inl (mem_pausedMetrics data m h)))
  · exact Or.inr (Or.inr (Or.inr (Or.inl (mem_uptimeMetrics data m h))))
  · exact Or.inr (Or.inr (Or.inr (Or.inr h)))

/-! ## Claim theorems -/

/-- C1 counterexample: with the critical bound configured as 0 and a metric
value of 0, BelowThresholdContext.evaluate returns Ok while the reference
definition of the claim returns Critical, because the Python guard
`if self.critical` treats the integer 0 as falsy. -/
theorem C1_zero_bound_counterexample :
    (BelowThresholdContext.evaluate ⟨"hashrate", none, some 0⟩
        ⟨"hashrate", .num 0, "hashrate"⟩).state
      ≠ specBelowState none (some 0) 0 := by decide

/-- C1 (amended): provided no configured bound equals 0, the below-threshold
evaluation agrees with the reference definition: Critical when a critical
bound is set and the value is at most it, else Warning when a warning bound
is set and the value is at most it, else OK; an unconfigured tier never
triggers. -/
theorem C1_below_threshold_matches_reference (n cn : String)
    (w c : Option Int) (v : Int) (hw : w ≠ some 0) (hc : c ≠ some 0) :
    (BelowThresholdContext.evaluate ⟨n, w, c⟩ ⟨n, .num v, cn⟩).state
      = specBelowState w c v := by
  cases c with
  | none =>
    cases w with
    | none => rfl
    | some w0 =>
      have hw0 : w0 ≠ 0 := fun h => hw (by rw [h])
      simp only [BelowThresholdContext.evaluate, specBelowState, optTruthy,
        Value.toInt, Option.getD, bne_iff_ne, ne_eq, hw0, not_false_iff]
      by_cases h : v ≤ w0 <;> simp [h]
  | some c0 =>
    have hc0 : c0 ≠ 0 := fun h => hc (by rw [h])
    cases w with
    | none =>
      simp only [BelowThresholdContext.evaluate, specBelowState, optTruthy,
        Value.toInt, Option.getD, bne_iff_ne, ne_eq, hc0, not_false_iff]
      by_cases h : v ≤ c0 <;> simp [h]
    | some w0 =>
      have hw0 : w0 ≠ 0 := fun h => hw (by rw [h])
      simp only [BelowThresholdContext.evaluate, specBelowState, optTruthy,
        Value.toInt, Option.getD, bne_iff_ne, ne_eq, hc0, hw0, not_false_iff]
      by_cases h1 : v ≤ c0 <;> by_cases h2 : v ≤ w0 <;> simp [h1, h2]

/-- C1 witness: at warning bound 10, critical bound 5 and value 7 the
hypotheses hold and the evaluation matches the reference (Warning). -/
theorem C1_below_threshold_reference_witness :
    (some (10 : Int) ≠ some 0) ∧ (some (5 : Int) ≠ some 0)
    ∧ (BelowThresholdContext.evaluate ⟨"hashrate", some 10, some 5⟩
        ⟨"hashrate", .num 7, "hashrate"⟩).state
      = specBelowState (some 10) (some 5) 7 :=
  ⟨by decide, by decide,
    C1_below_threshold_matches_reference "hashrate" "hashrate" (some 10)
      (some 5) 7 (by decide) (by decide)⟩

/-- C2: with paused=true in the snapshot and only the paused-warning flag
set, the check exits 0 with an empty problem summary, because main builds
the paused BooleanContext with expected=True, so an actually paused miner
matches the expectation; the configured Warning fires on paused=false
instead, contradicting the flag help text "Raise warning when T-Rex is
paused". -/
theorem C2_paused_true_with_warning_flag_exits_ok :
    runCheck { paused_warning := true }
        (.ok { paused := some true, gpus := some [] }) = (0, "")
    ∧ (runCheck { paused_warning := true }
        (.ok { paused := some false, gpus := some [] })).1 = 1 :=
  ⟨rfl, rfl⟩

/-- C5: the above-threshold evaluation (modelled from the spec, the
ScalarContext implementation living in the external nagiosplugin library) is
Critical when the value reaches the critical bound, else Warning when it
reaches the warning bound, else OK; and with the default thresholds 70/90 a
GPU temperature of 95 drives the whole check to exit code 2. -/
theorem C5_above_threshold_evaluation (n cn : String) (w c v : Int) :
    (ScalarContext.evaluate ⟨n, w, c⟩ ⟨n, .num v, cn⟩).state
      = (if v ≥ c then State.critical
         else if v ≥ w then State.warn else State.ok)
    ∧ (runCheck {} (.ok { gpus := some [⟨0, "GPU0", some 95, none⟩] })).1
      = 2 := by
  constructor
  · simp only [ScalarContext.evaluate, Value.toInt]
    by_cases h1 : v ≥ c <;> by_cases h2 : v ≥ w <;> simp [h1, h2]
  · rfl

/-- C6: for any boolean context, a mismatch between the observed and the
expected boolean yields the configured severity (Critical if the critical
flag is set, else Warning if the warning flag is set, else OK) and a match
always yields OK. -/
theorem C6_boolean_mismatch_severity (n cn : String) (e w c obs : Bool) :
    (BooleanContext.evaluate ⟨n, e, w, c⟩ ⟨n, .bool obs, cn⟩).state
      = (if obs ≠ e then
          (if c then State.critical else if w then State.warn else State.ok)
         else State.ok) := by
  cases e <;> cases obs <;> cases w <;> cases c <;>
    simp [BooleanContext.evaluate]

/-- C3 counterexample: the response in which every optional field is absent
makes the probe raise (the GPU loop iterates over `data.get("gpus")`, which
is None), instead of completing without error. -/
theorem C3_missing_gpus_counterexample :
    Trex.probe {} = .error .gpusNone := rfl

/-- C3 (amended): when the gpus list is present and no GPU record carries a
memory_temperature key, the probe completes without error and every other
absent optional field simply omits its metric from the output. -/
theorem C3_missing_fields_omitted (data : SummaryData) (gl : List Gpu)
    (hg : data.gpus = some gl)
    (hm : ∀ g ∈ gl, g.memory_temperature = none) :
    ∃ ms, Trex.probe data = .ok ms
      ∧ (data.hashrate = none → ∀ m ∈ ms, m.name ≠ "hashrate")
      ∧ (data.success = none → ∀ m ∈ ms, m.name ≠ "success")
      ∧ (data.paused = none → ∀ m ∈ ms, m.name ≠ "paused")
      ∧ (data.uptime = none → ∀ m ∈ ms, m.name ≠ "uptime")
      ∧ ((∀ g ∈ gl, g.temperature = none) →
          ∀ m ∈ ms, m.name ≠ "temperature")
      ∧ (∀ m ∈ ms, m.name ≠ "memory_temperature") := by
  obtain ⟨gms, hgms, hname⟩ := probeGpus_ok gl hm
  refine ⟨(hashrateMetrics data ++ successMetrics data ++ pausedMetrics data
    ++ uptimeMetrics data) ++ gms, ?_, ?_, ?_, ?_, ?_, ?_, ?_⟩
  · simp only [Trex.probe, hg, hgms]
  · intro h0 m hmem
    rcases probe_mem_cases data gms m hmem with h | h | h | h | h
    · rw [h0] at h; simp at h
    · rw [h.1]; decide
    · rw [h.1]; decide
    · rw [h.1]; decide
    · rw [hname m h]; decide
  · intro h0 m hmem
    rcases probe_mem_cases data gms m hmem with h | h | h | h | h
    · rw [h.1]; decide
    · rw [h0] at h; simp at h
    · rw [h.1]; decide
    · rw [h.1]; decide
    · rw [hname m h]; decide
  · intro h0 m hmem
    rcases probe_mem_cases data gms m hmem with h | h | h | h | h
    · rw [h.1]; decide
    · rw [h.1]; decide
    · rw [h0] at h; simp at h
    · rw [h.1]; decide
    · rw [hname m h]; decide
  · intro h0 m hmem
    rcases probe_mem_cases data gms m hmem with h | h | h | h | h
    · rw [h.1]; decide
    · rw [h.1]; decide
    · rw [h.1]; decide
    · rw [h0] at h; simp at h
    · rw [hname m h]; decide
  · intro ht m hmem
    rcases probe_mem_cases data gms m hmem with h | h | h | h | h
    · rw [h.1]; decide
    · rw [h.1]; decide
    · rw [h.1]; decide
    · rw [h.1]; decide
    · have he := probeGpus_empty gl hm ht
      rw [hgms] at he
      injection he with he2
      rw [he2] at h
      simp at h
  · intro m hmem
    rcases probe_mem_cases data gms m hmem with h | h | h | h | h
    · rw [h.1]; decide
    · rw [h.1]; decide
    · rw [h.1]; decide
    · rw [h.1]; decide
    · rw [hname m h]; decide

/-- A sample GPU record with a core temperature only. -/
def sampleGpu : Gpu := { gpu_id := 0, name := "GPU0", temperature := some 50 }

/-- A sample response holding only the success flag and one GPU with a core
temperature; every other optional field is absent. -/
def sampleOmitData : SummaryData :=
  { success := some true, gpus := some [sampleGpu] }

/-- C3 witness: sampleOmitData satisfies the hypotheses, the probe succeeds,
and the metrics for the absent fields are all omitted. -/
theorem C3_missing_fields_omitted_witness :
    sampleOmitData.gpus = some [sampleGpu]
    ∧ (∀ g ∈ [sampleGpu], g.memory_temperature = none)
    ∧ ∃ ms, Trex.probe sampleOmitData = .ok ms
      ∧ (sampleOmitData.hashrate = none → ∀ m ∈ ms, m.name ≠ "hashrate")
      ∧ (sampleOmitData.success = none → ∀ m ∈ ms, m.name ≠ "success")
      ∧ (sampleOmitData.paused = none → ∀ m ∈ ms, m.name ≠ "paused")
      ∧ (sampleOmitData.uptime = none → ∀ m ∈ ms, m.name ≠ "uptime")
      ∧ ((∀ g ∈ [sampleGpu], g.temperature = none) →
          ∀ m ∈ ms, m.name ≠ "temperature")
      ∧ (∀ m ∈ ms, m.name ≠ "memory_temperature") :=
  ⟨rfl, by decide, C3_missing_fields_omitted sampleOmitData [sampleGpu] rfl
    (by decide)⟩

/-- C4: a response whose gpus list contains a record with a
memory_temperature key makes the probe raise the NameError coming from the
unbound name `memory_temperature` in the GPU loop, instead of producing a
memory_temperature metric. -/
theorem C4_memory_temperature_field_raises (data : SummaryData)
    (gl : List Gpu) (hg : data.gpus = some gl)
    (h : ∃ g ∈ gl, g.memory_temperature.isSome) :
    Trex.probe data = .error .memoryTemperatureUnbound := by
  have he := probeGpus_error gl h
  simp only [Trex.probe, hg, he]

/-- A sample GPU record carrying a memory temperature. -/
def sampleMemGpu : Gpu := { gpu_id := 0, name := "GPU0",
                            memory_temperature := some 80 }

/-- A sample response whose single GPU record carries a memory temperature. -/
def sampleMemData : SummaryData := { gpus := some [sampleMemGpu] }

/-- C4 witness: sampleMemData satisfies the hypotheses and the probe raises
the NameError. -/
theorem C4_memory_temperature_field_raises_witness :
    sampleMemData.gpus = some [sampleMemGpu]
    ∧ (∃ g ∈ [sampleMemGpu], g.memory_temperature.isSome)
    ∧ Trex.probe sampleMemData = .error .memoryTemperatureUnbound :=
  ⟨rfl, ⟨sampleMemGpu, by simp, rfl⟩,
    C4_memory_temperature_field_raises sampleMemData [sampleMemGpu] rfl
      ⟨sampleMemGpu, by simp, rfl⟩⟩

/-- C7: when the probe succeeds, the exit code of the check is the Nagios
code of the worst state among all evaluated results: that state bounds every
individual result and, unless it is the default OK, is attained by one of
them; the Nagios codes are 0, 1, 2, 3 for OK, WARNING, CRITICAL, UNKNOWN. -/
theorem C7_exit_code_is_worst_severity (args : Args) (data : SummaryData)
    (ms : List Metric) (h : Trex.probe data = .ok ms) :
    (runCheck args (.ok data)).1
      = (worstState (evalMetrics (contexts args) ms)).code
    ∧ (∀ r ∈ evalMetrics (contexts args) ms,
        r.state.code ≤ (worstState (evalMetrics (contexts args) ms)).code)
    ∧ (worstState (evalMetrics (contexts args) ms) = State.ok
        ∨ ∃ r ∈ evalMetrics (contexts args) ms,
            r.state = worstState (evalMetrics (contexts args) ms))
    ∧ State.ok.code = 0 ∧ State.warn.code = 1 ∧ State.critical.code = 2
    ∧ State.unknown.code = 3 := by
  refine ⟨?_, ?_, ?_, rfl, rfl, rfl, rfl⟩
  · simp [runCheck, h]
  · exact fun r hr =>
      (worstState_foldl_le (evalMetrics (contexts args) ms) .ok).2 r hr
  · rcases worstState_foldl_attained (evalMetrics (contexts args) ms) .ok
      with h1 | ⟨r, hr, h1⟩
    · exact Or.inl h1
    · exact Or.inr ⟨r, hr, h1.symm⟩

/-- C7 witness: a snapshot with hashrate 500 against a critical bound of 600
probes successfully and the exit code is the code of the worst (Critical)
result. -/
theorem C7_exit_code_is_worst_severity_witness :
    Trex.probe { hashrate := some 500, gpus := some [] }
      = .ok [Metric.mk "hashrate" (.num 500) "hashrate"]
    ∧ ((runCheck { hashrate_critical := some 600 }
        (.ok { hashrate := some 500, gpus := some [] })).1
      = (worstState (evalMetrics (contexts { hashrate_critical := some 600 })
          [Metric.mk "hashrate" (.num 500) "hashrate"])).code
    ∧ (∀ r ∈ evalMetrics (contexts { hashrate_critical := some 600 })
          [Metric.mk "hashrate" (.num 500) "hashrate"],
        r.state.code ≤ (worstState (evalMetrics
          (contexts { hashrate_critical := some 600 })
          [Metric.mk "hashrate" (.num 500) "hashrate"])).code)
    ∧ (worstState (evalMetrics (contexts { hashrate_critical := some 600 })
          [Metric.mk "hashrate" (.num 500) "hashrate"]) = State.ok
        ∨ ∃ r ∈ evalMetrics (contexts { hashrate_critical := some 600 })
            [Metric.mk "hashrate" (.num 500) "hashrate"],
            r.state = worstState (evalMetrics
              (contexts { hashrate_critical := some 600 })
              [Metric.mk "hashrate" (.num 500) "hashrate"]))
    ∧ State.ok.code = 0 ∧ State.warn.code = 1 ∧ State.critical.code = 2
    ∧ State.unknown.code = 3) :=
  ⟨rfl, C7_exit_code_is_worst_severity { hashrate_critical := some 600 }
    { hashrate := some 500, gpus := some [] }
    [Metric.mk "hashrate" (.num 500) "hashrate"] rfl⟩

/-- C8: every fetch-level failure — network failure, timeout, non-2xx
response, JSON-parse failure — reaches the top-level handler of main, which
prints a short message and exits with the UNKNOWN code 3; in particular the
connection failure of an unreachable URL does. -/
theorem C8_fetch_failure_yields_unknown (args : Args) (e : FetchError) :
    runCheck args (.error e) = (3, "Failed to execute check")
    ∧ runCheck args (.error .connection) = (3, "Failed to execute check") :=
  ⟨rfl, rfl⟩

/-- C9: the problem summary joins the non-OK results as
"name state: hint" with commas, dropping OK results: hashrate 500 against a
critical bound 600 gives exit code 2 with summary "hashrate critical:
500<=600", and adding a matching success and a warning uptime shows the OK
result filtered out and the join by ", ". -/
theorem C9_problem_summary_formatting :
    runCheck { hashrate_critical := some 600 }
        (.ok { hashrate := some 500, gpus := some [] })
      = (2, "hashrate critical: 500<=600")
    ∧ runCheck { hashrate_critical := some 600, uptime_warning := some 900 }
        (.ok { hashrate := some 500, success := some true, uptime := some 60,
               gpus := some [] })
      = (2, "hashrate critical: 500<=600, uptime warning: 60<=900") :=
  ⟨rfl, rfl⟩

/-- C10: the success context is built with no severity flags, so whatever the
observed success value, its result is OK — with hint "success is not True" on
a false value — and prepending it to any result list leaves the worst state
unchanged; the context registered for success in main carries expected=True
and no severity flags. -/
theorem C10_success_false_stays_ok (v : Bool) (args : Args)
    (rs : List Result) :
    (BooleanContext.evaluate { name := "success" }
        ⟨"success", .bool v, "success"⟩).state = State.ok
    ∧ (BooleanContext.evaluate { name := "success" }
        ⟨"success", .bool false, "success"⟩).hint
      = some "success is not True"
    ∧ worstState (BooleanContext.evaluate { name := "success" }
        ⟨"success", .bool v, "success"⟩ :: rs) = worstState rs
    ∧ Ctx.boolean { name := "success" } ∈ contexts args := by
  refine ⟨?_, rfl, ?_, ?_⟩
  · cases v <;> rfl
  · cases v <;> rfl
  · exact List.mem_cons_self _ _

end CheckTrex
